import Mathlib

/-!
Shallow embedding of the aim-prediction core of `aim_calculator.py`
(class `AimCalculator`): ship-catalog resolution with fallbacks,
time-of-flight, lateral lead, shell drop, and final aim-point clamping.

Real-valued Python float arithmetic is modelled over `ℝ` (`math.sin`,
`math.cos`, `math.radians` become `Real.sin`, `Real.cos`, multiplication
by `π / 180`).  Catalog data (JSON numbers) is modelled over `ℚ` so that
lookups stay decidable; the values are cast to `ℝ` where the ballistic
math consumes them.  Python `int()` on a float truncates toward zero and
is modelled by `pyInt`.  The fallible file read in `load_ship_data` is
modelled by an `Except` argument describing the outcome of
`open` + `json.load`.
-/

namespace AimCalculator

/-- Ballistic parameters record, mirroring the JSON objects
`{"max_speed": .., "acceleration": .., "shell_velocity": ..}`.
Fields are optional because a catalog entry may be partially populated
(the caller uses `dict.get` with a default).  A Python empty dict `{}`
corresponds to all three fields absent. -/
structure ShipParams where
  max_speed : Option ℚ
  acceleration : Option ℚ
  shell_velocity : Option ℚ
deriving DecidableEq, Repr

/-- The empty params dict `{}` (falsy in Python). -/
def emptyParams : ShipParams := ⟨none, none, none⟩

/-- The ship catalog `self.ship_data`: a JSON object mapping plural class
names to objects mapping ship names to parameter records, modelled as
nested association lists. -/
def ShipData : Type := List (String × List (String × ShipParams))

/-- Embedding of Python `str.lower()` (the catalog keys are ASCII, so
per-character `Char.toLower` is faithful). -/
def pyLower (s : String) : String := ⟨s.data.map Char.toLower⟩

/-- Embedding of `x.lower() if x else "unknown"`: Python truthiness makes
both `None` and the empty string fall back to the literal `"unknown"`. -/
def normKey : Option String → String
  | none => "unknown"
  | some s => if s = "" then "unknown" else pyLower s

/-- The four fixed fallback records of `get_ship_params` (lines 56-64 of
`aim_calculator.py`), keyed by exact class-name match. -/
def fallback_params (ship_type : String) : ShipParams :=
  if ship_type = "destroyer" then ⟨some 35, some 2, some 800⟩
  else if ship_type = "cruiser" then ⟨some 32, some 1.8, some 850⟩
  else if ship_type = "battleship" then ⟨some 28, some 1.3, some 800⟩
  else ⟨some 30, some 1.5, some 800⟩

/-- Embedding of `AimCalculator.get_ship_params`.  Both keys are
normalized by `normKey`; the class key is pluralized with `"s"`; a
missing level of the nested dict yields `{}` (here `[]` / `emptyParams`);
`if not ship_params` is the Python falsiness test on the resulting dict,
true exactly when the record is empty. -/
def get_ship_params (ship_data : ShipData) (ship_type ship_name : Option String) :
    ShipParams :=
  let st := normKey ship_type
  let sn := normKey ship_name
  let type_data := (List.lookup (st ++ "s") ship_data).getD []
  let ship_params := (List.lookup sn type_data).getD emptyParams
  if ship_params = emptyParams then fallback_params st
  else ship_params

/-- Constant `self.gravity = 9.8` (m/s²). -/
def gravity : ℝ := 9.8

/-- Constant `self.default_shell_velocity = 800` (m/s). -/
def default_shell_velocity : ℚ := 800

/-- Embedding of `AimCalculator.calculate_time_of_flight`:
`d / v + g * d^2 / (2 * v^2)` with `d = distance_km * 1000`. -/
noncomputable def calculate_time_of_flight (distance_km shell_velocity : ℝ) : ℝ :=
  let distance_m := distance_km * 1000
  distance_m / shell_velocity + gravity * distance_m ^ 2 / (2 * shell_velocity ^ 2)

/-- The `target_data` dict consumed by `calculate_lead_distance`; each
field may be absent (`dict.get` with a default supplies it). -/
structure TargetData where
  distance : Option ℝ
  speed : Option ℝ
  angle : Option ℝ
  ship_type : Option String
  ship_name : Option String

/-- Embedding of `AimCalculator.calculate_lead_distance` (lines 88-140),
returning `(lead_distance_pixels, aim_point_offset_x, aim_point_offset_y)`. -/
noncomputable def calculate_lead_distance (ship_data : ShipData)
    (target_data : TargetData) : ℝ × ℝ × ℝ :=
  let distance_km := target_data.distance.getD 10
  let speed_knots := target_data.speed.getD 0
  let angle_degrees := target_data.angle.getD 90
  let ship_type := target_data.ship_type.getD "cruiser"
  let ship_name := target_data.ship_name.getD "unknown"
  let ship_params := get_ship_params ship_data (some ship_type) (some ship_name)
  let shell_velocity : ℝ := ((ship_params.shell_velocity.getD default_shell_velocity : ℚ) : ℝ)
  let speed_ms := speed_knots * 0.5144
  let angle_rad := angle_degrees * (Real.pi / 180)
  let effective_speed := speed_ms * Real.sin angle_rad
  let tof := calculate_time_of_flight distance_km shell_velocity
  let lead_distance_m := effective_speed * tof
  let pixels_per_km := 100 * (10 / distance_km)
  let lead_distance_pixels := lead_distance_m / 1000 * pixels_per_km
  (lead_distance_pixels,
   lead_distance_pixels * Real.sin angle_rad,
   -(lead_distance_pixels * Real.cos angle_rad))

/-- Embedding of Python `int()` applied to a float: truncation toward
zero (floor for nonnegative arguments, ceiling for negative ones). -/
noncomputable def pyInt (x : ℝ) : ℤ := if 0 ≤ x then ⌊x⌋ else ⌈x⌉

/-- Embedding of `AimCalculator.calculate_aim_point` (lines 142-165):
offsets are truncated with `int()`, added to the target center, and the
result is clamped to `[0, width] × [0, height]`. -/
noncomputable def calculate_aim_point (ship_data : ShipData) (target_center : ℤ × ℤ)
    (target_data : TargetData) (screen_size : ℤ × ℤ) : ℤ × ℤ :=
  let r := calculate_lead_distance ship_data target_data
  let aim_x := target_center.1 + pyInt r.2.1
  let aim_y := target_center.2 + pyInt r.2.2
  (max 0 (min aim_x screen_size.1), max 0 (min aim_y screen_size.2))

/-- Embedding of `AimCalculator.calculate_shell_drop` (lines 167-190). -/
noncomputable def calculate_shell_drop (distance_km shell_velocity : ℝ) : ℝ :=
  let tof := calculate_time_of_flight distance_km shell_velocity
  let drop_m := 0.5 * gravity * tof ^ 2
  let pixels_per_100m_at_10km : ℝ := 10
  let pixels_per_100m := pixels_per_100m_at_10km * (10 / distance_km)
  drop_m / 100 * pixels_per_100m

/-- Embedding of `AimCalculator.load_ship_data` (lines 19-34): the
outcome of `open` + `json.load` is passed as an `Except` value; any
raised exception is caught and yields the empty catalog `{}`. -/
def load_ship_data (read_result : Except String ShipData) : ShipData :=
  match read_result with
  | .ok d => d
  | .error _ => []

/-!  Helper lemmas about `Char.toLower`, `pyLower` and the catalog. -/

/-- A `Nat` below the surrogate range converts to `Char` and back unchanged. -/
theorem toNat_ofNat_of_lt (n : Nat) (h : n < 0xd800) : (Char.ofNat n).toNat = n := by
  rw [Char.ofNat, dif_pos (Or.inl h)]
  rfl

/-- Value of `Char.toLower` on the code-point level. -/
theorem toNat_toLower (c : Char) :
    c.toLower.toNat = if c.toNat ≥ 65 ∧ c.toNat ≤ 90 then c.toNat + 32 else c.toNat := by
  rw [Char.toLower]
  by_cases h : c.toNat ≥ 65 ∧ c.toNat ≤ 90
  · rw [if_pos h, if_pos h, toNat_ofNat_of_lt _ (by omega)]
  · rw [if_neg h, if_neg h]

/-- Characters with equal code points are equal. -/
theorem char_eq_of_toNat_eq {a b : Char} (h : a.toNat = b.toNat) : a = b :=
  Char.ext (UInt32.toNat.inj h)

/-- Lowercasing a character twice is the same as lowercasing it once. -/
theorem toLower_toLower (c : Char) : c.toLower.toLower = c.toLower := by
  apply char_eq_of_toNat_eq
  rw [toNat_toLower c.toLower, toNat_toLower c]
  by_cases h : c.toNat ≥ 65 ∧ c.toNat ≤ 90
  · rw [if_pos h]
    rw [if_neg (by omega)]
  · rw [if_neg h, if_neg h]

/-- Python `str.lower()` is idempotent. -/
theorem pyLower_pyLower (s : String) : pyLower (pyLower s) = pyLower s := by
  simp only [pyLower, List.map_map]
  congr 1
  exact List.map_congr_left fun c _ => toLower_toLower c

/-- Lowercasing preserves emptiness of a string. -/
theorem pyLower_eq_empty_iff (s : String) : pyLower s = "" ↔ s = "" := by
  constructor
  · intro h
    have hd : (pyLower s).data = [] := by rw [h]
    simp only [pyLower, List.map_eq_nil_iff] at hd
    cases s
    simp_all
  · intro h
    rw [h]
    rfl

/-- Key normalization is invariant under prior lowercasing. -/
theorem normKey_map_pyLower (o : Option String) :
    normKey (o.map pyLower) = normKey o := by
  cases o with
  | none => rfl
  | some s =>
    show normKey (some (pyLower s)) = normKey (some s)
    simp only [normKey]
    by_cases h : s = ""
    · rw [h]
      rfl
    · rw [if_neg h, if_neg ((not_congr (pyLower_eq_empty_iff s)).mpr h), pyLower_pyLower]

/-- The resolver only sees its inputs through `normKey`. -/
theorem get_ship_params_congr (sd : ShipData) {ct ct' cn cn' : Option String}
    (h1 : normKey ct = normKey ct') (h2 : normKey cn = normKey cn') :
    get_ship_params sd ct cn = get_ship_params sd ct' cn' := by
  simp only [get_ship_params, h1, h2]

/-- On the empty catalog every lookup resolves to the class fallback. -/
theorem get_ship_params_nil (ct cn : Option String) :
    get_ship_params [] ct cn = fallback_params (normKey ct) := by
  simp only [get_ship_params, List.lookup_nil, Option.getD_none, if_true]

/-- The time of flight is positive for positive distance and velocity. -/
theorem time_of_flight_pos {d v : ℝ} (hd : 0 < d) (hv : 0 < v) :
    0 < calculate_time_of_flight d v := by
  simp only [calculate_time_of_flight, gravity]
  positivity

/-!  Claim theorems. -/

/-- C1: for every `distanceKm ≥ 0` and `shellVelocity > 0`,
`calculate_time_of_flight` equals `d / v + (9.8 * d^2) / (2 * v^2)` with
`d = distanceKm * 1000` and `v = shellVelocity`. -/
theorem time_of_flight_matches_formula (distance_km shell_velocity : ℝ)
    (hd : 0 ≤ distance_km) (hv : 0 < shell_velocity) :
    calculate_time_of_flight distance_km shell_velocity =
      (distance_km * 1000) / shell_velocity +
        (9.8 * (distance_km * 1000) ^ 2) / (2 * shell_velocity ^ 2) := by
  simp only [calculate_time_of_flight, gravity]

/-- Witness for C1 at `distanceKm = 1`, `shellVelocity = 800`. -/
theorem time_of_flight_matches_formula_witness :
    (0:ℝ) ≤ 1 ∧ (0:ℝ) < 800 ∧
      calculate_time_of_flight 1 800 =
        ((1:ℝ) * 1000) / 800 + (9.8 * ((1:ℝ) * 1000) ^ 2) / (2 * (800:ℝ) ^ 2) :=
  ⟨by norm_num, by norm_num,
    time_of_flight_matches_formula 1 800 (by norm_num) (by norm_num)⟩

/-- C4: for every `distanceKm > 0` and `shellVelocity > 0`,
`calculate_shell_drop` returns `((0.5 * 9.8 * tof^2) / 100) * 10 * (10 / distanceKm)`
pixels, where `tof` is the (gravity-containing) time of flight — the
documented double application of gravity is preserved. -/
theorem shell_drop_matches_formula (distance_km shell_velocity : ℝ)
    (hd : 0 < distance_km) (hv : 0 < shell_velocity) :
    calculate_shell_drop distance_km shell_velocity =
      ((0.5 * 9.8 * (calculate_time_of_flight distance_km shell_velocity) ^ 2) / 100)
        * 10 * (10 / distance_km) := by
  simp only [calculate_shell_drop, gravity]
  ring

/-- Witness for C4 at `distanceKm = 10`, `shellVelocity = 800`. -/
theorem shell_drop_matches_formula_witness :
    (0:ℝ) < 10 ∧ (0:ℝ) < 800 ∧
      calculate_shell_drop 10 800 =
        ((0.5 * 9.8 * (calculate_time_of_flight 10 800) ^ 2) / 100) * 10 * (10 / 10) :=
  ⟨by norm_num, by norm_num,
    shell_drop_matches_formula 10 800 (by norm_num) (by norm_num)⟩

/-- C5: for every `(shipClass, shipId)` pair whose normalized form misses
the catalog, `get_ship_params` totally returns the fixed fallback record
for the exact class name — destroyer `{35.0, 2.0, 800}` (shell velocity
800), cruiser `{32.0, 1.8, 850}`, battleship `{28.0, 1.3, 800}` — and the
generic record `{30.0, 1.5, 800}` for any other class, including empty or
malformed ones. -/
theorem fallback_when_not_in_catalog (sd : ShipData) (ct cn : Option String)
    (h : List.lookup (normKey cn) ((List.lookup (normKey ct ++ "s") sd).getD []) = none) :
    (normKey ct = "destroyer" →
      get_ship_params sd ct cn = ⟨some 35, some 2, some 800⟩) ∧
    (normKey ct = "cruiser" →
      get_ship_params sd ct cn = ⟨some 32, some 1.8, some 850⟩) ∧
    (normKey ct = "battleship" →
      get_ship_params sd ct cn = ⟨some 28, some 1.3, some 800⟩) ∧
    (normKey ct ≠ "destroyer" → normKey ct ≠ "cruiser" → normKey ct ≠ "battleship" →
      get_ship_params sd ct cn = ⟨some 30, some 1.5, some 800⟩) := by
  have hbase : get_ship_params sd ct cn = fallback_params (normKey ct) := by
    simp only [get_ship_params, h, Option.getD_none, if_true]
  refine ⟨?_, ?_, ?_, ?_⟩
  · intro hc
    rw [hbase, fallback_params, if_pos hc]
  · intro hc
    rw [hbase, fallback_params, hc]
    rfl
  · intro hc
    rw [hbase, fallback_params, hc]
    rfl
  · intro h1 h2 h3
    rw [hbase, fallback_params, if_neg h1, if_neg h2, if_neg h3]

/-- Witness for C5 at the unknown class `"Submarine"` against the empty
catalog: the generic fallback branch fires. -/
theorem fallback_when_not_in_catalog_witness :
    List.lookup (normKey (some "X"))
        ((List.lookup (normKey (some "Submarine") ++ "s") ([] : ShipData)).getD []) = none ∧
      (normKey (some "Submarine") ≠ "destroyer" → normKey (some "Submarine") ≠ "cruiser" →
        normKey (some "Submarine") ≠ "battleship" →
        get_ship_params [] (some "Submarine") (some "X") = ⟨some 30, some 1.5, some 800⟩) :=
  ⟨rfl, (fallback_when_not_in_catalog [] (some "Submarine") (some "X") rfl).2.2.2⟩

/-- C7: for every target center, observation and screen size with
nonnegative width and height, the aim point lies in
`[0, width] × [0, height]`; out-of-range points are saturated to the
nearest edge, never rejected. -/
theorem aim_point_within_screen (sd : ShipData) (c : ℤ × ℤ) (td : TargetData)
    (w h : ℤ) (hw : 0 ≤ w) (hh : 0 ≤ h) :
    0 ≤ (calculate_aim_point sd c td (w, h)).1 ∧
      (calculate_aim_point sd c td (w, h)).1 ≤ w ∧
      0 ≤ (calculate_aim_point sd c td (w, h)).2 ∧
      (calculate_aim_point sd c td (w, h)).2 ≤ h := by
  simp only [calculate_aim_point]
  exact ⟨le_max_left 0 _, max_le hw (min_le_right _ _),
    le_max_left 0 _, max_le hh (min_le_right _ _)⟩

/-- Witness for C7 on a 1920×1080 screen with an all-defaulted observation. -/
theorem aim_point_within_screen_witness :
    (0:ℤ) ≤ 1920 ∧ (0:ℤ) ≤ 1080 ∧
      (0 ≤ (calculate_aim_point [] (960, 540) ⟨none, none, none, none, none⟩ (1920, 1080)).1 ∧
        (calculate_aim_point [] (960, 540) ⟨none, none, none, none, none⟩ (1920, 1080)).1 ≤ 1920 ∧
        0 ≤ (calculate_aim_point [] (960, 540) ⟨none, none, none, none, none⟩ (1920, 1080)).2 ∧
        (calculate_aim_point [] (960, 540) ⟨none, none, none, none, none⟩ (1920, 1080)).2 ≤ 1080) :=
  ⟨by norm_num, by norm_num,
    aim_point_within_screen [] (960, 540) ⟨none, none, none, none, none⟩ 1920 1080
      (by norm_num) (by norm_num)⟩

/-- C8: a failed read or parse of the backing file yields the empty
catalog (the constructor never propagates the failure — totality of
`load_ship_data` over every `Except` outcome), after which every
resolver call takes the fallback path. -/
theorem load_failure_degrades_to_fallback (e : String) (ct cn : Option String) :
    load_ship_data (Except.error e) = [] ∧
      get_ship_params (load_ship_data (Except.error e)) ct cn =
        fallback_params (normKey ct) :=
  ⟨rfl, get_ship_params_nil ct cn⟩

/-- C9: catalog lookup is case-insensitive in both keys, and a missing or
empty class or name is treated as the literal `"unknown"`. -/
theorem lookup_case_insensitive (sd : ShipData) (ct cn : Option String) :
    get_ship_params sd ct cn = get_ship_params sd (ct.map pyLower) (cn.map pyLower) ∧
      get_ship_params sd none cn = get_ship_params sd (some "unknown") cn ∧
      get_ship_params sd ct none = get_ship_params sd ct (some "unknown") ∧
      get_ship_params sd (some "") cn = get_ship_params sd (some "unknown") cn ∧
      get_ship_params sd ct (some "") = get_ship_params sd ct (some "unknown") := by
  have hu : normKey (some "unknown") = "unknown" := by decide
  have he : normKey (some "") = "unknown" := by decide
  refine ⟨?_, ?_, ?_, ?_, ?_⟩
  · exact get_ship_params_congr sd (normKey_map_pyLower ct).symm (normKey_map_pyLower cn).symm
  · exact get_ship_params_congr sd (by rw [hu]; rfl) rfl
  · exact get_ship_params_congr sd rfl (by rw [hu]; rfl)
  · exact get_ship_params_congr sd (by rw [hu, he]) rfl
  · exact get_ship_params_congr sd rfl (by rw [hu, he])

/-- Shell velocity as `calculate_lead_distance` resolves it: catalog
lookup through `get_ship_params`, with the global default filling an
absent field. -/
def resolved_shell_velocity (sd : ShipData) (td : TargetData) : ℚ :=
  (get_ship_params sd (some (td.ship_type.getD "cruiser"))
    (some (td.ship_name.getD "unknown"))).shell_velocity.getD default_shell_velocity

/-- Lead triple as the spec's §4.3 words state it: effective speed
`s * 0.5144 * sin(bearing_rad)`, lead meters `effectiveSpeed * tof`,
lead pixels `(leadMeters / 1000) * 100 * (10 / d)`, decomposed into
screen offsets `(leadPixels * sin, -leadPixels * cos)`. -/
noncomputable def leadSpecFormula (d s θ v : ℝ) : ℝ × ℝ × ℝ :=
  let bearing_rad := θ * (Real.pi / 180)
  let effectiveSpeed := s * 0.5144 * Real.sin bearing_rad
  let leadMeters := effectiveSpeed * calculate_time_of_flight d v
  let leadPixels := leadMeters / 1000 * 100 * (10 / d)
  (leadPixels, leadPixels * Real.sin bearing_rad, -(leadPixels * Real.cos bearing_rad))

/-- C2: for every observation with `distanceKm > 0` and `speedKnots ≥ 0`,
`calculate_lead_distance` returns exactly the spec's lead triple at the
resolved shell velocity; bearing 0° yields zero lead, and bearing 90°
yields the maximal lead among all bearings for fixed speed and distance
(the latter under the data-model invariant that the resolved shell
velocity is positive). -/
theorem lead_matches_spec (sd : ShipData) (d s θ : ℝ) (ct cn : Option String)
    (hd : 0 < d) (hs : 0 ≤ s) :
    calculate_lead_distance sd ⟨some d, some s, some θ, ct, cn⟩ =
      leadSpecFormula d s θ
        ((resolved_shell_velocity sd ⟨some d, some s, some θ, ct, cn⟩ : ℚ) : ℝ) ∧
    (θ = 0 → (calculate_lead_distance sd ⟨some d, some s, some θ, ct, cn⟩).1 = 0) ∧
    (0 < ((resolved_shell_velocity sd ⟨some d, some s, some θ, ct, cn⟩ : ℚ) : ℝ) →
      (calculate_lead_distance sd ⟨some d, some s, some θ, ct, cn⟩).1 ≤
        (calculate_lead_distance sd ⟨some d, some s, some (90:ℝ), ct, cn⟩).1) := by
  refine ⟨?_, ?_, ?_⟩
  · simp only [calculate_lead_distance, leadSpecFormula, resolved_shell_velocity,
      Option.getD_some]
    refine Prod.ext ?_ (Prod.ext ?_ ?_)
    · simp only
      ring
    · simp only
      ring
    · simp only
      ring
  · intro h0
    simp only [calculate_lead_distance, Option.getD_some, h0, zero_mul, Real.sin_zero,
      mul_zero, zero_div]
  · intro hv
    simp only [calculate_lead_distance, resolved_shell_velocity, Option.getD_some] at hv ⊢
    have h90 : (90:ℝ) * (Real.pi / 180) = Real.pi / 2 := by ring
    rw [h90, Real.sin_pi_div_two]
    set v : ℝ := (((get_ship_params sd (some (ct.getD "cruiser"))
      (some (cn.getD "unknown"))).shell_velocity.getD default_shell_velocity : ℚ) : ℝ)
    have htof : 0 < calculate_time_of_flight d v := time_of_flight_pos hd hv
    have hK : 0 ≤ s * 0.5144 * calculate_time_of_flight d v / 1000 * (100 * (10 / d)) := by
      positivity
    nlinarith [Real.sin_le_one (θ * (Real.pi / 180)), hK,
      mul_le_of_le_one_right hK (Real.sin_le_one (θ * (Real.pi / 180)))]

/-- Witness for C2 at distance 10 km, speed 1 knot, bearing 45°, unnamed
ship against the empty catalog. -/
theorem lead_matches_spec_witness :
    (0:ℝ) < 10 ∧ (0:ℝ) ≤ 1 ∧
      (calculate_lead_distance [] ⟨some 10, some 1, some 45, none, none⟩ =
        leadSpecFormula 10 1 45
          ((resolved_shell_velocity [] ⟨some 10, some 1, some 45, none, none⟩ : ℚ) : ℝ) ∧
      ((45:ℝ) = 0 →
        (calculate_lead_distance [] ⟨some 10, some 1, some 45, none, none⟩).1 = 0) ∧
      (0 < ((resolved_shell_velocity [] ⟨some 10, some 1, some 45, none, none⟩ : ℚ) : ℝ) →
        (calculate_lead_distance [] ⟨some 10, some 1, some 45, none, none⟩).1 ≤
          (calculate_lead_distance [] ⟨some 10, some 1, some (90:ℝ), none, none⟩).1)) :=
  ⟨by norm_num, by norm_num,
    lead_matches_spec [] 10 1 45 none none (by norm_num) (by norm_num)⟩

/-- Worked scenario of the spec: distance 8.5 km, speed 25 knots,
bearing 45°, destroyer resolved through the fallback (shell velocity
800 m/s, catalog empty). -/
def tdC3 : TargetData := ⟨some 8.5, some 25, some 45, some "destroyer", some "shimakaze"⟩

/-- Exact value of the lead triple on the worked scenario. -/
theorem lead_tdC3 : calculate_lead_distance [] tdC3 =
    (426.48984375 * Real.sqrt 2, 426.48984375, -426.48984375) := by
  have hp : get_ship_params [] (some "destroyer") (some "shimakaze") =
      ⟨some 35, some 2, some 800⟩ := by
    rw [get_ship_params_nil]
    have h : normKey (some "destroyer") = "destroyer" := by decide
    rw [h, fallback_params, if_pos rfl]
  have hsin : Real.sin (45 * (Real.pi / 180)) = Real.sqrt 2 / 2 := by
    have h : (45:ℝ) * (Real.pi / 180) = Real.pi / 4 := by ring
    rw [h, Real.sin_pi_div_four]
  have hcos : Real.cos (45 * (Real.pi / 180)) = Real.sqrt 2 / 2 := by
    have h : (45:ℝ) * (Real.pi / 180) = Real.pi / 4 := by ring
    rw [h, Real.cos_pi_div_four]
  have hc : (((800:ℚ)) : ℝ) = (800:ℝ) := by norm_num
  have ht : calculate_time_of_flight 8.5 800 = 563.7890625 := by
    norm_num [calculate_time_of_flight, gravity]
  have h2 : Real.sqrt 2 * Real.sqrt 2 = 2 := Real.mul_self_sqrt (by norm_num)
  simp only [calculate_lead_distance, tdC3, Option.getD_some, hp, hc, ht, hsin, hcos]
  refine Prod.ext ?_ (Prod.ext ?_ ?_)
  · simp only
    ring_nf
  · simp only
    nlinarith [h2]
  · simp only
    nlinarith [h2]

/-- C3 counterexample: on the worked scenario the code's time of flight
is exactly 563.7890625 s, nowhere near the claimed ≈ 11.18 s (its
gravity term is `9.8 * 8500^2 / (2 * 800^2) ≈ 553.16`, not 0.554). -/
theorem scenario_tof_not_11s :
    calculate_time_of_flight 8.5 800 = 563.7890625 ∧
      ¬ (|calculate_time_of_flight 8.5 800 - 11.18| ≤ 10) := by
  have ht : calculate_time_of_flight 8.5 800 = 563.7890625 := by
    norm_num [calculate_time_of_flight, gravity]
  refine ⟨ht, ?_⟩
  rw [ht]
  intro habs
  rw [abs_le] at habs
  linarith [habs.2]

/-- C3 amended: on the scenario (distance 8.5 km, speed 25 knots, bearing
45°, destroyer fallback shell velocity 800), the time of flight is
563.7890625 s, the offsets are exactly ±426.48984375 pixels, and the lead
is `426.48984375 * sqrt 2 ≈ 603.15` pixels (lead meters ≈ 5126.8,
pixels-per-km ≈ 117.6 as the spec says). -/
theorem scenario_values_amended :
    calculate_time_of_flight 8.5 800 = 563.7890625 ∧
      (calculate_lead_distance [] tdC3).2.1 = 426.48984375 ∧
      (calculate_lead_distance [] tdC3).2.2 = -426.48984375 ∧
      603 < (calculate_lead_distance [] tdC3).1 ∧
      (calculate_lead_distance [] tdC3).1 < 604 := by
  have ht : calculate_time_of_flight 8.5 800 = 563.7890625 := by
    norm_num [calculate_time_of_flight, gravity]
  have h2 : Real.sqrt 2 * Real.sqrt 2 = 2 := Real.mul_self_sqrt (by norm_num)
  have hnn : (0:ℝ) ≤ Real.sqrt 2 := Real.sqrt_nonneg 2
  have hlb : (1.414:ℝ) < Real.sqrt 2 := by nlinarith
  have hub : Real.sqrt 2 < 1.4143 := by nlinarith
  rw [lead_tdC3]
  refine ⟨ht, rfl, rfl, ?_, ?_⟩
  · simp only
    nlinarith
  · simp only
    nlinarith

/-- Aim point as the C6 claim words it: nearest-integer rounding of the
lead offsets, then clamping — to be compared with the code's
`calculate_aim_point`. -/
noncomputable def round_aim_point (sd : ShipData) (target_center : ℤ × ℤ)
    (td : TargetData) (screen_size : ℤ × ℤ) : ℤ × ℤ :=
  let r := calculate_lead_distance sd td
  (max 0 (min (target_center.1 + round r.2.1) screen_size.1),
   max 0 (min (target_center.2 + round r.2.2) screen_size.2))

/-- Observation whose X lead offset is 0.60040125 pixels: truncation and
nearest-integer rounding disagree on it. -/
def tdC6 : TargetData := ⟨some 10, some 0.015, some 90, some "submarine", some "x"⟩

/-- Exact value of the lead triple on `tdC6`. -/
theorem lead_tdC6 : calculate_lead_distance [] tdC6 = (0.60040125, 0.60040125, 0) := by
  have hp : get_ship_params [] (some "submarine") (some "x") =
      ⟨some 30, some 1.5, some 800⟩ := by
    rw [get_ship_params_nil]
    have h : normKey (some "submarine") = "submarine" := by decide
    rw [h, fallback_params, if_neg (by decide), if_neg (by decide), if_neg (by decide)]
  have hsin : Real.sin (90 * (Real.pi / 180)) = 1 := by
    have h : (90:ℝ) * (Real.pi / 180) = Real.pi / 2 := by ring
    rw [h, Real.sin_pi_div_two]
  have hcos : Real.cos (90 * (Real.pi / 180)) = 0 := by
    have h : (90:ℝ) * (Real.pi / 180) = Real.pi / 2 := by ring
    rw [h, Real.cos_pi_div_two]
  have hc : (((800:ℚ)) : ℝ) = (800:ℝ) := by norm_num
  have ht : calculate_time_of_flight 10 800 = 778.125 := by
    norm_num [calculate_time_of_flight, gravity]
  simp only [calculate_lead_distance, tdC6, Option.getD_some, hp, hc, ht, hsin, hcos]
  refine Prod.ext ?_ (Prod.ext ?_ ?_)
  · simp only
    norm_num
  · simp only
    norm_num
  · simp only
    norm_num

/-- C6 counterexample: on `tdC6` with target center (100, 100) the code
truncates the 0.60040125-pixel offset to 0 and aims at (100, 100), while
the claimed nearest-integer rounding would aim at (101, 100). -/
theorem aim_point_rounding_cex :
    calculate_aim_point [] (100, 100) tdC6 (1920, 1080) = (100, 100) ∧
      round_aim_point [] (100, 100) tdC6 (1920, 1080) = (101, 100) ∧
      calculate_aim_point [] (100, 100) tdC6 (1920, 1080) ≠
        round_aim_point [] (100, 100) tdC6 (1920, 1080) := by
  have hfloor : pyInt 0.60040125 = 0 := by
    rw [pyInt, if_pos (by norm_num)]
    norm_num [Int.floor_eq_iff]
  have hzero : pyInt 0 = 0 := by
    rw [pyInt, if_pos le_rfl]
    norm_num
  have hround : round (0.60040125:ℝ) = 1 := by
    norm_num [round_eq, Int.floor_eq_iff]
  have h1 : calculate_aim_point [] (100, 100) tdC6 (1920, 1080) = (100, 100) := by
    simp only [calculate_aim_point, lead_tdC6, hfloor, hzero]
    norm_num
  have h2 : round_aim_point [] (100, 100) tdC6 (1920, 1080) = (101, 100) := by
    simp only [round_aim_point, lead_tdC6, hround]
    norm_num
  refine ⟨h1, h2, ?_⟩
  rw [h1, h2]
  intro habs
  exact absurd (congrArg Prod.fst habs) (by norm_num)

/-- C6 amended: the aim point is the target center plus the lead offsets
truncated toward zero — floor for nonnegative offsets, ceiling for
negative ones (Python `int()`), not nearest-integer rounding — clamped
to `[0, width] × [0, height]`. -/
theorem aim_point_uses_truncation (sd : ShipData) (c : ℤ × ℤ) (td : TargetData)
    (scr : ℤ × ℤ) :
    calculate_aim_point sd c td scr =
      (max 0 (min (c.1 +
          (if 0 ≤ (calculate_lead_distance sd td).2.1
            then ⌊(calculate_lead_distance sd td).2.1⌋
            else ⌈(calculate_lead_distance sd td).2.1⌉)) scr.1),
       max 0 (min (c.2 +
          (if 0 ≤ (calculate_lead_distance sd td).2.2
            then ⌊(calculate_lead_distance sd td).2.2⌋
            else ⌈(calculate_lead_distance sd td).2.2⌉)) scr.2)) := by
  simp only [calculate_aim_point, pyInt]

/-- C10: `calculate_lead_distance` is total over observations with
missing fields — absent distance defaults to 10 km, absent speed to 0
knots, absent bearing to 90°, absent class to `"cruiser"`, absent name to
`"unknown"`, and the lead is computed from the substituted values. -/
theorem lead_uses_defaults_for_missing_fields (sd : ShipData) (td : TargetData) :
    calculate_lead_distance sd td =
      calculate_lead_distance sd
        ⟨some (td.distance.getD 10), some (td.speed.getD 0), some (td.angle.getD 90),
          some (td.ship_type.getD "cruiser"), some (td.ship_name.getD "unknown")⟩ :=
  rfl

end AimCalculator
